import Mathlib

/-!
Verification of the quantum-netstat core (`src/app.py`): the metric-to-distribution
encoder (`quantum_circuit`), the normalization-factor suggestion pipeline
(`query_gpt4_for_normalization_factors` / `parse_normalization_response`), the
sqlite record schema (`create_db` / `insert_network_test`) and the orchestrating
cycle (`run_real_network_test`), shallowly embedded in Lean.

Conventions: a 4-qubit amplitude state is a function of the four wire values
(`true` = the qubit reads 1); the measured distribution is indexed by `Fin 16`
with wire 0 the most significant bit, matching PennyLane's ordering for
`qml.probs(wires=[0,1,2,3])`.  All amplitudes stay real because `RY` and `CNOT`
are real matrices, so a probability is the square of the amplitude.
-/

/-- A 4-qubit amplitude vector, indexed by the boolean value of wires 0..3. -/
def QState : Type := Bool → Bool → Bool → Bool → ℝ

/-- The pair (cos (θ/2), sin (θ/2)) parametrising the RY(θ) rotation matrix
`[[c, -s], [s, c]]`. -/
structure RotPair where
  c : ℝ
  s : ℝ

/-- Initial state |0000⟩: amplitude 1 on all-wires-zero, 0 elsewhere. -/
def initState : QState := fun b0 b1 b2 b3 =>
  match b0, b1, b2, b3 with
  | false, false, false, false => 1
  | _, _, _, _ => 0

/-- `qml.RY(θ, wires=0)`: rotate wire 0 by the matrix `[[c, -s], [s, c]]`. -/
def ry0 (p : RotPair) (v : QState) : QState := fun b0 b1 b2 b3 =>
  if b0 then p.s * v false b1 b2 b3 + p.c * v true b1 b2 b3
  else p.c * v false b1 b2 b3 - p.s * v true b1 b2 b3

/-- `qml.RY(θ, wires=1)`. -/
def ry1 (p : RotPair) (v : QState) : QState := fun b0 b1 b2 b3 =>
  if b1 then p.s * v b0 false b2 b3 + p.c * v b0 true b2 b3
  else p.c * v b0 false b2 b3 - p.s * v b0 true b2 b3

/-- `qml.RY(θ, wires=2)`. -/
def ry2 (p : RotPair) (v : QState) : QState := fun b0 b1 b2 b3 =>
  if b2 then p.s * v b0 b1 false b3 + p.c * v b0 b1 true b3
  else p.c * v b0 b1 false b3 - p.s * v b0 b1 true b3

/-- `qml.RY(θ, wires=3)`. -/
def ry3 (p : RotPair) (v : QState) : QState := fun b0 b1 b2 b3 =>
  if b3 then p.s * v b0 b1 b2 false + p.c * v b0 b1 b2 true
  else p.c * v b0 b1 b2 false - p.s * v b0 b1 b2 true

/-- `qml.CNOT(wires=[0,1])`: basis permutation |c,t⟩ ↦ |c, t xor c⟩. -/
def cnot01 (v : QState) : QState := fun b0 b1 b2 b3 => v b0 (Bool.xor b0 b1) b2 b3

/-- `qml.CNOT(wires=[1,2])`. -/
def cnot12 (v : QState) : QState := fun b0 b1 b2 b3 => v b0 b1 (Bool.xor b1 b2) b3

/-- `qml.CNOT(wires=[2,3])`. -/
def cnot23 (v : QState) : QState := fun b0 b1 b2 b3 => v b0 b1 b2 (Bool.xor b2 b3)

/-- The amplitude vector produced by the circuit body of `quantum_circuit`:
four RY rotations then the CNOT chain 0→1, 1→2, 2→3, applied to |0000⟩. -/
def circuitAmps (p0 p1 p2 p3 : RotPair) : QState :=
  cnot23 (cnot12 (cnot01 (ry3 p3 (ry2 p2 (ry1 p1 (ry0 p0 initState))))))

/-- `qml.probs(wires=[0,1,2,3])`: the 16 squared amplitudes, wire 0 as the
most significant index bit. -/
def probsOf (v : QState) : Fin 16 → ℝ
  | ⟨0, _⟩ => v false false false false ^ 2
  | ⟨1, _⟩ => v false false false true ^ 2
  | ⟨2, _⟩ => v false false true false ^ 2
  | ⟨3, _⟩ => v false false true true ^ 2
  | ⟨4, _⟩ => v false true false false ^ 2
  | ⟨5, _⟩ => v false true false true ^ 2
  | ⟨6, _⟩ => v false true true false ^ 2
  | ⟨7, _⟩ => v false true true true ^ 2
  | ⟨8, _⟩ => v true false false false ^ 2
  | ⟨9, _⟩ => v true false false true ^ 2
  | ⟨10, _⟩ => v true false true false ^ 2
  | ⟨11, _⟩ => v true false true true ^ 2
  | ⟨12, _⟩ => v true true false false ^ 2
  | ⟨13, _⟩ => v true true false true ^ 2
  | ⟨14, _⟩ => v true true true false ^ 2
  | ⟨15, _⟩ => v true true true true ^ 2
  | ⟨n + 16, h⟩ => absurd h (by omega)

/-- The rotation data of `qml.RY(θ)`. -/
noncomputable def rotPair (θ : ℝ) : RotPair := ⟨Real.cos (θ / 2), Real.sin (θ / 2)⟩

/-- The state simulation at four rotation angles (the qnode body of
`quantum_circuit` with the angles already computed). -/
noncomputable def simulate (a0 a1 a2 a3 : ℝ) : Fin 16 → ℝ :=
  probsOf (circuitAmps (rotPair a0) (rotPair a1) (rotPair a2) (rotPair a3))

/-- The four normalization divisors handed to `quantum_circuit`
(`normalization_factors` dict in the code). -/
structure NormalizationFactors where
  download_speed : ℝ
  upload_speed : ℝ
  ping : ℝ
  jitter : ℝ

/-- `quantum_circuit(download_speed, upload_speed, ping, jitter,
normalization_factors)` from `src/app.py`: encodes the metrics as angles and
simulates the circuit. -/
noncomputable def quantum_circuit (download_speed upload_speed ping jitter : ℝ)
    (nf : NormalizationFactors) : Fin 16 → ℝ :=
  simulate (Real.pi * (download_speed / nf.download_speed))
    (Real.pi * (upload_speed / nf.upload_speed))
    (Real.pi * (1 - ping / nf.ping))
    (Real.pi * (jitter / nf.jitter))

/-- The rotation coefficient a wire contributes to a basis state: `c` when the
wire reads 0, `s` when it reads 1 (the first column of the RY matrix). -/
def sel (p : RotPair) : Bool → ℝ
  | false => p.c
  | true => p.s

/-! ## Free-text parsing of normalization factors -/

/-- `int(...)` on the captured digit run (most significant digit first). -/
def natOfDigits (l : List Char) : ℕ :=
  l.foldl (fun a c => 10 * a + (c.toNat - 48)) 0

/-- One attempt of the regex `"<factor>: (\d+)"` anchored at the start of `s`:
the literal pattern must be a prefix and at least one digit must follow; the
greedy `\d+` captures the maximal digit run. -/
def matchAt (pat s : List Char) : Option ℕ :=
  if pat.isPrefixOf s then
    let ds := (s.drop pat.length).takeWhile Char.isDigit
    if ds = [] then none else some (natOfDigits ds)
  else none

/-- `re.search`: scan left to right for the first position where the whole
pattern (literal text plus at least one digit) matches. -/
def search (pat : List Char) : List Char → Option ℕ
  | [] => matchAt pat []
  | c :: t =>
    match matchAt pat (c :: t) with
    | some n => some n
    | none => search pat t

/-- The result dict of `parse_normalization_response`: exactly the four factor
keys, each an integer. -/
structure ParsedFactors where
  download_speed : ℕ
  upload_speed : ℕ
  ping : ℕ
  jitter : ℕ
deriving DecidableEq

/-- One loop iteration of `parse_normalization_response`: search the response
for `"<factor>: (\d+)"`, default 100 when no match. -/
def findFactor (factor response : List Char) : ℕ :=
  (search (factor ++ ": ".toList) response).getD 100

/-- `parse_normalization_response(response)` from `src/app.py`. -/
def parse_normalization_response (response : List Char) : ParsedFactors where
  download_speed := findFactor "download_speed".toList response
  upload_speed := findFactor "upload_speed".toList response
  ping := findFactor "ping".toList response
  jitter := findFactor "jitter".toList response

/-! ## The completion endpoint call and the pipeline cycle -/

/-- A Python exception escaping a coroutine. -/
inductive PyError where
  | transport
  | malformedResponse
  | storage
deriving DecidableEq

/-- Outcome of `client.post(...)`: either the transport raises, or a response
arrives with a status code and with `result["choices"][0]["text"]` either
extractable (`some`) or not (`none`: empty/malformed JSON body). -/
inductive PostResult where
  | transportError
  | response (status : ℕ) (choicesText : Option (List Char))

/-- The fallback text returned on a non-success status. -/
def errorSentinel : List Char := "Error in analysis.".toList

/-- `query_gpt4_for_normalization_factors()` from `src/app.py`, as a function
of the post outcome.  A transport error propagates (there is no try/except);
on status 200 the body extraction either yields the text or raises; any other
status returns the sentinel string. -/
def query_gpt4_for_normalization_factors : PostResult → Except PyError (List Char)
  | .transportError => .error .transport
  | .response status choicesText =>
    if status = 200 then
      match choicesText with
      | some t => .ok t
      | none => .error .malformedResponse
    else .ok errorSentinel

/-- The metric sample captured by the speedtest probe. -/
structure MetricSample where
  download_speed : ℝ
  upload_speed : ℝ
  ping : ℝ
  jitter : ℝ

/-- The ints of `ParsedFactors` as the real divisors fed to `quantum_circuit`. -/
def toFactors (p : ParsedFactors) : NormalizationFactors where
  download_speed := p.download_speed
  upload_speed := p.upload_speed
  ping := p.ping
  jitter := p.jitter

/-- The data handed to `update_ui` at the end of a successful cycle. -/
structure UiReport where
  download_speed : ℝ
  upload_speed : ℝ
  ping : ℝ
  jitter : ℝ
  quantum_result : Fin 16 → ℝ

/-- Terminal state of one `run_real_network_test` coroutine: either an
exception propagated out, or the cycle finished and scheduled a UI report. -/
inductive CycleOutcome where
  | raised (e : PyError)
  | finished (r : UiReport)

/-- `run_real_network_test` from `src/app.py`, after a successful capture:
query the completion endpoint (its exceptions propagate), parse the factors,
encode via `quantum_circuit`, insert into the database (an insert exception
propagates, and then no UI report is scheduled), finally schedule `update_ui`. -/
noncomputable def run_real_network_test (sample : MetricSample) (post : PostResult)
    (insertResult : Except PyError Unit) : CycleOutcome :=
  match query_gpt4_for_normalization_factors post with
  | .error e => .raised e
  | .ok txt =>
    let nf := parse_normalization_response txt
    let qr := quantum_circuit sample.download_speed sample.upload_speed
      sample.ping sample.jitter (toFactors nf)
    match insertResult with
    | .error e => .raised e
    | .ok _ => .finished ⟨sample.download_speed, sample.upload_speed,
        sample.ping, sample.jitter, qr⟩

/-! ## The sqlite schema -/

/-- The columns of the `network_tests` table created by `create_db`. -/
def networkTestsColumns : List String :=
  ["id", "download_speed", "upload_speed", "ping", "jitter", "quantum_result"]

/-- The columns `insert_network_test` supplies values for. -/
def insertNetworkTestColumns : List String :=
  ["download_speed", "upload_speed", "ping", "jitter", "quantum_result"]

/-- The `Record` field list claimed by the spec's data model (id, the four
metrics, the serialized distribution, and a timestamp).  Modelled from the
spec: this list follows the spec's words, for comparison with
`networkTestsColumns` taken from the code. -/
def specRecordColumns : List String :=
  ["id", "download_speed", "upload_speed", "ping", "jitter", "quantum_result",
    "timestamp"]

/-- A row of `network_tests` past the auto-assigned id: the four metrics and
`str(quantum_result)`. -/
def DbRow : Type := ℝ × ℝ × ℝ × ℝ × String

/-- The database file: `none` while the `network_tests` table does not exist,
`some rows` once it does. -/
structure DbState where
  networkTests : Option (List DbRow)

/-- `create_db()` from `src/app.py`.  The SQL statement is
`CREATE TABLE IF NOT EXISTS network_tests (...)`; its engine-side semantics -
create an empty table when absent, leave an existing table and its rows
untouched - is modelled from the spec's schema contract (`CREATE IF NOT
EXISTS` semantics), the engine being an external collaborator. -/
def create_db (db : DbState) : DbState :=
  match db.networkTests with
  | none => ⟨some []⟩
  | some rows => ⟨some rows⟩

/-- Declarative reading of `re.search(f"<factor>: (\d+)", r)` finding value
`n`: the response splits as `a ++ pat ++ b` with at least one digit opening
`b`, `n` is the value of the maximal digit run, and no strictly earlier
position admits a full match. -/
def FirstOccur (pat r : List Char) (n : ℕ) : Prop :=
  ∃ a b : List Char, r = a ++ (pat ++ b) ∧ b.takeWhile Char.isDigit ≠ [] ∧
    n = natOfDigits (b.takeWhile Char.isDigit) ∧
    ∀ a' b', r = a' ++ (pat ++ b') → b'.takeWhile Char.isDigit ≠ [] →
      a.length ≤ a'.length

/-! ## Helper lemmas -/

theorem sum16 (f : Fin 16 → ℝ) :
    ∑ k, f k = f 0 + f 1 + f 2 + f 3 + f 4 + f 5 + f 6 + f 7 + f 8 + f 9 +
      f 10 + f 11 + f 12 + f 13 + f 14 + f 15 := by
  repeat rw [Fin.sum_univ_castSucc]
  rw [Fin.sum_univ_zero, zero_add]
  rfl

theorem ry_product (p0 p1 p2 p3 : RotPair) (b0 b1 b2 b3 : Bool) :
    ry3 p3 (ry2 p2 (ry1 p1 (ry0 p0 initState))) b0 b1 b2 b3 =
      sel p0 b0 * sel p1 b1 * sel p2 b2 * sel p3 b3 := by
  cases b0 <;> cases b1 <;> cases b2 <;> cases b3 <;>
    simp [ry0, ry1, ry2, ry3, initState, sel] <;> ring

theorem circuitAmps_eq (p0 p1 p2 p3 : RotPair) (b0 b1 b2 b3 : Bool) :
    circuitAmps p0 p1 p2 p3 b0 b1 b2 b3 =
      sel p0 b0 * sel p1 (Bool.xor b0 b1) * sel p2 (Bool.xor b1 b2) *
        sel p3 (Bool.xor b2 b3) := by
  show ry3 p3 (ry2 p2 (ry1 p1 (ry0 p0 initState))) b0 (Bool.xor b0 b1) _ _ = _
  rw [ry_product]

theorem sum_probs_circuit (p0 p1 p2 p3 : RotPair) :
    ∑ k, probsOf (circuitAmps p0 p1 p2 p3) k =
      (p0.c ^ 2 + p0.s ^ 2) * (p1.c ^ 2 + p1.s ^ 2) *
        (p2.c ^ 2 + p2.s ^ 2) * (p3.c ^ 2 + p3.s ^ 2) := by
  rw [sum16]
  simp [probsOf, circuitAmps_eq, sel]
  ring

theorem probsOf_nonneg (v : QState) (k : Fin 16) : 0 ≤ probsOf v k := by
  fin_cases k <;> exact sq_nonneg _

theorem sum_simulate (a0 a1 a2 a3 : ℝ) : ∑ k, simulate a0 a1 a2 a3 k = 1 := by
  unfold simulate
  rw [sum_probs_circuit]
  simp [rotPair, Real.cos_sq_add_sin_sq]

theorem isPrefixOf_iff_exists :
    ∀ l₁ l₂ : List Char, l₁.isPrefixOf l₂ = true ↔ ∃ t, l₂ = l₁ ++ t
  | [], l₂ => by simp
  | a :: as, [] => by simp
  | a :: as, b :: bs => by
    rw [List.isPrefixOf_cons₂]
    simp only [Bool.and_eq_true, beq_iff_eq, List.cons_append]
    rw [isPrefixOf_iff_exists as bs]
    constructor
    · rintro ⟨rfl, t, rfl⟩
      exact ⟨t, rfl⟩
    · rintro ⟨t, ht⟩
      injection ht with h1 h2
      exact ⟨h1.symm, t, h2⟩

theorem matchAt_eq_some (pat s : List Char) (n : ℕ) :
    matchAt pat s = some n ↔
      ∃ b, s = pat ++ b ∧ b.takeWhile Char.isDigit ≠ [] ∧
        n = natOfDigits (b.takeWhile Char.isDigit) := by
  unfold matchAt
  by_cases h : pat.isPrefixOf s
  · obtain ⟨t, ht⟩ := (isPrefixOf_iff_exists pat s).mp h
    subst ht
    rw [if_pos h, List.drop_left]
    constructor
    · intro hsome
      by_cases hd : t.takeWhile Char.isDigit = []
      · rw [if_pos hd] at hsome
        exact Option.noConfusion hsome
      · rw [if_neg hd] at hsome
        injection hsome with hsome
        exact ⟨t, rfl, hd, hsome.symm⟩
    · rintro ⟨b, hb, hd, hn⟩
      have hbt : t = b := (List.append_right_inj pat).mp hb
      subst hbt
      rw [if_neg hd, hn]
  · rw [if_neg h]
    constructor
    · intro hsome
      exact Option.noConfusion hsome
    · rintro ⟨b, hb, _, _⟩
      exact absurd ((isPrefixOf_iff_exists pat s).mpr ⟨b, hb⟩) h

theorem search_eq_some (pat : List Char) :
    ∀ (r : List Char) (n : ℕ), search pat r = some n ↔ FirstOccur pat r n
  | [], n => by
    unfold search
    rw [matchAt_eq_some]
    constructor
    · rintro ⟨b, hb, hd, hn⟩
      exact ⟨[], b, by simpa using hb, hd, hn, fun a' b' _ _ => Nat.zero_le _⟩
    · rintro ⟨a, b, heq, hd, hn, _⟩
      refine ⟨b, ?_, hd, hn⟩
      have : a = [] ∧ pat ++ b = [] := by
        constructor
        · cases a with
          | nil => rfl
          | cons x xs => exact absurd heq.symm (by simp)
        · cases hpb : pat ++ b with
          | nil => rfl
          | cons x xs =>
            rw [hpb] at heq
            exact absurd heq.symm (by simp)
      rw [this.2]
  | c :: t, n => by
    unfold search
    cases hm : matchAt pat (c :: t) with
    | some m =>
      simp only [Option.some.injEq]
      rw [matchAt_eq_some] at hm
      obtain ⟨b, hb, hd, hv⟩ := hm
      constructor
      · rintro rfl
        exact ⟨[], b, by simpa using hb, hd, hv, fun _ _ _ _ => Nat.zero_le _⟩
      · rintro ⟨a, b', heq, hd', hv', hmin⟩
        have ha : a = [] := by
          have h0 : a.length ≤ 0 := by simpa using hmin [] b (by simpa using hb) hd
          exact List.length_eq_zero.mp (Nat.le_zero.mp h0)
        subst ha
        have hbb : b = b' := by
          refine (List.append_right_inj pat).mp ?_
          rw [← hb]
          simpa using heq
        subst hbb
        rw [hv', hv]
    | none =>
      rw [search_eq_some pat t n]
      constructor
      · rintro ⟨a, b, heq, hd, hv, hmin⟩
        refine ⟨c :: a, b, by simp [heq], hd, hv, ?_⟩
        rintro a' b' heq' hd'
        cases a' with
        | nil =>
          exfalso
          have hsome : matchAt pat (c :: t) =
              some (natOfDigits (b'.takeWhile Char.isDigit)) :=
            (matchAt_eq_some pat (c :: t) _).mpr ⟨b', by simpa using heq', hd', rfl⟩
          rw [hm] at hsome
          exact Option.noConfusion hsome
        | cons c' a'' =>
          injection heq' with h1 h2
          simp only [List.length_cons]
          exact Nat.succ_le_succ (hmin a'' b' h2 hd')
      · rintro ⟨a, b, heq, hd, hv, hmin⟩
        cases a with
        | nil =>
          exfalso
          have hsome : matchAt pat (c :: t) =
              some (natOfDigits (b.takeWhile Char.isDigit)) :=
            (matchAt_eq_some pat (c :: t) _).mpr ⟨b, by simpa using heq, hd, rfl⟩
          rw [hm] at hsome
          exact Option.noConfusion hsome
        | cons c' a'' =>
          injection heq with h1 h2
          refine ⟨a'', b, h2, hd, hv, ?_⟩
          rintro a' b' heq' hd'
          have h3 : c :: t = (c :: a') ++ (pat ++ b') := by
            rw [List.cons_append, heq']
          have h4 := hmin (c :: a') b' h3 hd'
          simpa using h4

theorem findFactor_eq (factor r : List Char) :
    (∀ n, FirstOccur (factor ++ ": ".toList) r n → findFactor factor r = n) ∧
      ((∀ n, ¬ FirstOccur (factor ++ ": ".toList) r n) → findFactor factor r = 100) := by
  constructor
  · intro n hf
    unfold findFactor
    rw [(search_eq_some _ r n).mpr hf]
    rfl
  · intro h
    unfold findFactor
    cases hs : search (factor ++ ": ".toList) r with
    | none => rfl
    | some m => exact absurd ((search_eq_some _ r m).mp hs) (h m)

/-! ## Claim theorems -/

/-- C1: for every quadruple of real rotation angles (and for every metric
sample and factor set fed to `quantum_circuit`), the 16-element output of the
state simulation is a probability distribution: every entry is non-negative
and the entries sum to 1, in particular within tolerance 1e-9. -/
theorem C1_simulate_is_distribution :
    (∀ a0 a1 a2 a3 : ℝ, (∀ k, 0 ≤ simulate a0 a1 a2 a3 k) ∧
        ∑ k, simulate a0 a1 a2 a3 k = 1 ∧
        |∑ k, simulate a0 a1 a2 a3 k - 1| ≤ 1e-9) ∧
      ∀ d u p j : ℝ, ∀ nf : NormalizationFactors,
        (∀ k, 0 ≤ quantum_circuit d u p j nf k) ∧
          ∑ k, quantum_circuit d u p j nf k = 1 := by
  constructor
  · intro a0 a1 a2 a3
    refine ⟨fun k => probsOf_nonneg _ k, sum_simulate a0 a1 a2 a3, ?_⟩
    rw [sum_simulate]
    norm_num
  · intro d u p j nf
    exact ⟨fun k => probsOf_nonneg _ k, sum_simulate _ _ _ _⟩

/-- C2: for every metric sample and factor set, the normalizer inside
`quantum_circuit` computes exactly the four spec angles (π·download/f,
π·upload/f, π·(1 − ping/f), π·jitter/f) with no clamping: the equality holds
unconditionally, and whenever ping exceeds its (positive) factor the ping
angle is negative — outside [0, π] — yet still accepted by the circuit. -/
theorem C2_normalizer_angles (d u p j : ℝ) (nf : NormalizationFactors) :
    quantum_circuit d u p j nf =
      simulate (Real.pi * (d / nf.download_speed))
        (Real.pi * (u / nf.upload_speed))
        (Real.pi * (1 - p / nf.ping))
        (Real.pi * (j / nf.jitter)) ∧
      (0 < nf.ping → nf.ping < p → Real.pi * (1 - p / nf.ping) < 0) := by
  refine ⟨rfl, fun hping hover => ?_⟩
  have h1 : 1 < p / nf.ping := (one_lt_div hping).mpr hover
  have h2 : 1 - p / nf.ping < 0 := by linarith
  exact mul_neg_of_pos_of_neg Real.pi_pos h2

theorem C2_witness :
    (quantum_circuit 120 20 200 3 ⟨100, 100, 100, 100⟩ =
        simulate (Real.pi * (120 / 100)) (Real.pi * (20 / 100))
          (Real.pi * (1 - 200 / 100)) (Real.pi * (3 / 100))) ∧
      Real.pi * (1 - (200 : ℝ) / 100) < 0 :=
  ⟨(C2_normalizer_angles 120 20 200 3 ⟨100, 100, 100, 100⟩).1,
    (C2_normalizer_angles 120 20 200 3 ⟨100, 100, 100, 100⟩).2
      (by norm_num : (0 : ℝ) < 100) (by norm_num : (100 : ℝ) < 200)⟩

/-- C3: simulating with angles [π, 0, 0, 0] puts all probability on the basis
state where all four qubits read 1 (index 15) and 0 elsewhere: the full
rotation flips qubit 0 and the CNOT chain 0→1, 1→2, 2→3 cascades the flip. -/
theorem C3_full_rotation_concentrates (k : Fin 16) :
    simulate Real.pi 0 0 0 k = if k = 15 then 1 else 0 := by
  have h0 : rotPair 0 = ⟨1, 0⟩ := by simp [rotPair]
  have hpi : rotPair Real.pi = ⟨0, 1⟩ := by
    simp [rotPair, Real.cos_pi_div_two, Real.sin_pi_div_two]
  unfold simulate
  rw [h0, hpi]
  fin_cases k <;> simp [probsOf, circuitAmps_eq, sel]

/-- C4 counterexample: on a transport error the suggestion call does NOT
return a factor-set source — the exception escapes (there is no try/except in
`query_gpt4_for_normalization_factors`), refuting "never fails outward". -/
theorem C4_counterexample :
    ¬ ∃ t, query_gpt4_for_normalization_factors PostResult.transportError =
      Except.ok t := by
  rintro ⟨t, h⟩
  exact Except.noConfusion h

/-- C4 (amended): only a non-success HTTP status is absorbed — the call then
returns the sentinel text whose parse is the all-default (100) factor set;
a transport error, or a 200 response whose body yields no choices text,
propagates an exception to the caller. -/
theorem C4_amended_failure_modes (s : ℕ) (t : Option (List Char)) (hs : s ≠ 200) :
    query_gpt4_for_normalization_factors (.response s t) = .ok errorSentinel ∧
      parse_normalization_response errorSentinel = ⟨100, 100, 100, 100⟩ ∧
      query_gpt4_for_normalization_factors .transportError = .error .transport ∧
      query_gpt4_for_normalization_factors (.response 200 none) =
        .error .malformedResponse := by
  refine ⟨?_, by decide, rfl, rfl⟩
  simp [query_gpt4_for_normalization_factors, hs]

theorem C4_witness :
    (404 ≠ 200) ∧
      (query_gpt4_for_normalization_factors (.response 404 (some [])) =
          .ok errorSentinel ∧
        parse_normalization_response errorSentinel = ⟨100, 100, 100, 100⟩ ∧
        query_gpt4_for_normalization_factors .transportError = .error .transport ∧
        query_gpt4_for_normalization_factors (.response 200 none) =
          .error .malformedResponse) :=
  ⟨by decide, C4_amended_failure_modes 404 (some []) (by decide)⟩

/-- C5 counterexample: when the storage insert raises, the cycle does NOT
proceed to any reporting or enrichment — `run_real_network_test` ends with the
exception propagating, never reaching `Clock.schedule_once`. -/
theorem C5_counterexample :
    ¬ ∃ r, run_real_network_test ⟨120, 20, 15, 3⟩ (.response 404 none)
        (Except.error PyError.storage) = CycleOutcome.finished r := by
  rintro ⟨r, h⟩
  rw [show run_real_network_test ⟨120, 20, 15, 3⟩ (.response 404 none)
      (Except.error PyError.storage) = CycleOutcome.raised PyError.storage
    from rfl] at h
  exact CycleOutcome.noConfusion h

/-- C5 (amended): a failing insert aborts the cycle — the StorageError
propagates and no UI report (and no enrichment, of which the code has none)
happens; only a successful insert leads to the report built from the
in-memory values. -/
theorem C5_amended_storage_aborts (sample : MetricSample) (txt : List Char) :
    run_real_network_test sample (.response 200 (some txt)) (.error .storage) =
        .raised .storage ∧
      run_real_network_test sample (.response 200 (some txt)) (.ok ()) =
        .finished ⟨sample.download_speed, sample.upload_speed, sample.ping,
          sample.jitter,
          quantum_circuit sample.download_speed sample.upload_speed sample.ping
            sample.jitter (toFactors (parse_normalization_response txt))⟩ :=
  ⟨rfl, rfl⟩

/-- C6 counterexample: the created table's column list is not the spec's
Record field list — it has no timestamp column at all. -/
theorem C6_counterexample :
    networkTestsColumns ≠ specRecordColumns ∧
      "timestamp" ∉ networkTestsColumns := by
  decide

/-- C6 (amended): the table created by `create_db` has exactly the columns
id, download_speed, upload_speed, ping, jitter and quantum_result (the
distribution serialized as text); there is no timestamp column and inserted
records carry no timestamp — `insert_network_test` supplies values only for
the five non-id columns, all of which exist in the table. -/
theorem C6_amended_schema :
    networkTestsColumns =
        ["id", "download_speed", "upload_speed", "ping", "jitter",
          "quantum_result"] ∧
      insertNetworkTestColumns =
        ["download_speed", "upload_speed", "ping", "jitter", "quantum_result"] ∧
      "timestamp" ∉ networkTestsColumns ∧
      ∀ c ∈ insertNetworkTestColumns, c ∈ networkTestsColumns := by
  refine ⟨rfl, rfl, ?_, ?_⟩ <;> decide

/-- C7 counterexample: the parser's pattern accepts the integer 0, so a
suggestion response containing "download_speed: 0" produces a zero divisor in
the factor set handed to the encoder. -/
theorem C7_counterexample :
    (parse_normalization_response ("download_speed: 0".toList)).download_speed
      = 0 := by
  decide

/-- C7 (amended): a factor absent from the response defaults to 100, which is
strictly positive; but a matched factor may be 0 (the pattern `(\d+)` accepts
it), so strict positivity of every factor reaching the encoder does not hold. -/
theorem C7_amended_default_positive (r : List Char) :
    (search ("download_speed".toList ++ ": ".toList) r = none →
        0 < (parse_normalization_response r).download_speed) ∧
      (search ("upload_speed".toList ++ ": ".toList) r = none →
        0 < (parse_normalization_response r).upload_speed) ∧
      (search ("ping".toList ++ ": ".toList) r = none →
        0 < (parse_normalization_response r).ping) ∧
      (search ("jitter".toList ++ ": ".toList) r = none →
        0 < (parse_normalization_response r).jitter) := by
  refine ⟨fun h => ?_, fun h => ?_, fun h => ?_, fun h => ?_⟩ <;>
    · simp only [parse_normalization_response, findFactor]
      rw [h]
      decide

theorem C7_witness :
    0 < (parse_normalization_response []).download_speed ∧
      0 < (parse_normalization_response []).upload_speed ∧
      0 < (parse_normalization_response []).ping ∧
      0 < (parse_normalization_response []).jitter :=
  ⟨(C7_amended_default_positive []).1 (by decide),
    (C7_amended_default_positive []).2.1 (by decide),
    (C7_amended_default_positive []).2.2.1 (by decide),
    (C7_amended_default_positive []).2.2.2 (by decide)⟩

/-- C8: `create_db` is idempotent — a second run changes nothing, and when the
table already exists a run leaves the database state (schema and rows)
exactly as it was. -/
theorem C8_create_db_idempotent (db : DbState) :
    create_db (create_db db) = create_db db ∧
      ∀ rows, db.networkTests = some rows → create_db db = db := by
  obtain ⟨t⟩ := db
  constructor
  · cases t <;> rfl
  · intro rows h
    cases t with
    | none => exact Option.noConfusion h
    | some rows2 => rfl

theorem C8_witness :
    create_db (create_db ⟨some []⟩) = create_db ⟨some []⟩ ∧
      create_db ⟨some []⟩ = ⟨some []⟩ :=
  ⟨(C8_create_db_idempotent ⟨some []⟩).1,
    (C8_create_db_idempotent ⟨some []⟩).2 [] rfl⟩

/-- C9: the encoder is deterministic — two calls of `quantum_circuit` on
identical sample and factor inputs produce identical 16-element outputs. -/
theorem C9_encoder_deterministic (d u p j : ℝ) (nf : NormalizationFactors)
    (x y : Fin 16 → ℝ) (hx : x = quantum_circuit d u p j nf)
    (hy : y = quantum_circuit d u p j nf) : x = y :=
  hx.trans hy.symm

theorem C9_witness :
    quantum_circuit 120 20 15 3 ⟨100, 100, 100, 100⟩ =
      quantum_circuit 120 20 15 3 ⟨100, 100, 100, 100⟩ :=
  C9_encoder_deterministic 120 20 15 3 ⟨100, 100, 100, 100⟩ _ _ rfl rfl

/-- C10: `parse_normalization_response` is total and returns exactly the four
factor keys; each value is the integer of the first full occurrence of
"<key>: <digits>" in the response when one exists, and 100 otherwise. -/
theorem C10_parse_characterization (r : List Char) :
    (∀ n, FirstOccur ("download_speed".toList ++ ": ".toList) r n →
        (parse_normalization_response r).download_speed = n) ∧
      ((∀ n, ¬ FirstOccur ("download_speed".toList ++ ": ".toList) r n) →
        (parse_normalization_response r).download_speed = 100) ∧
      (∀ n, FirstOccur ("upload_speed".toList ++ ": ".toList) r n →
        (parse_normalization_response r).upload_speed = n) ∧
      ((∀ n, ¬ FirstOccur ("upload_speed".toList ++ ": ".toList) r n) →
        (parse_normalization_response r).upload_speed = 100) ∧
      (∀ n, FirstOccur ("ping".toList ++ ": ".toList) r n →
        (parse_normalization_response r).ping = n) ∧
      ((∀ n, ¬ FirstOccur ("ping".toList ++ ": ".toList) r n) →
        (parse_normalization_response r).ping = 100) ∧
      (∀ n, FirstOccur ("jitter".toList ++ ": ".toList) r n →
        (parse_normalization_response r).jitter = n) ∧
      ((∀ n, ¬ FirstOccur ("jitter".toList ++ ": ".toList) r n) →
        (parse_normalization_response r).jitter = 100) :=
  ⟨fun n hf => (findFactor_eq "download_speed".toList r).1 n hf,
    fun h => (findFactor_eq "download_speed".toList r).2 h,
    fun n hf => (findFactor_eq "upload_speed".toList r).1 n hf,
    fun h => (findFactor_eq "upload_speed".toList r).2 h,
    fun n hf => (findFactor_eq "ping".toList r).1 n hf,
    fun h => (findFactor_eq "ping".toList r).2 h,
    fun n hf => (findFactor_eq "jitter".toList r).1 n hf,
    fun h => (findFactor_eq "jitter".toList r).2 h⟩

theorem C10_witness :
    (parse_normalization_response ("download_speed: 42".toList)).download_speed
        = 42 ∧
      (parse_normalization_response ("download_speed: 42".toList)).ping = 100 :=
  ⟨(C10_parse_characterization ("download_speed: 42".toList)).1 42
      ⟨[], "42".toList, by decide, by decide, by decide,
        fun a' b' _ _ => Nat.zero_le _⟩,
    (C10_parse_characterization ("download_speed: 42".toList)).2.2.2.2.2.1
      (fun n hf => by
        have hs := (search_eq_some ("ping".toList ++ ": ".toList)
          ("download_speed: 42".toList) n).mpr hf
        rw [show search ("ping".toList ++ ": ".toList)
            ("download_speed: 42".toList) = none from by decide] at hs
        exact Option.noConfusion hs)⟩

theorem C6_witness : "download_speed" ∈ networkTestsColumns :=
  C6_amended_schema.2.2.2 "download_speed" (by decide)
